import Mathlib

set_option maxRecDepth 8192

namespace SH1108

/-- Transport-defined failure value from the external display-interface
collaborator. The core never inspects it and only propagates it, so it is
modelled as an abstract numeric code. -/
structure DisplayError where
  code : Nat
deriving DecidableEq, Repr

/-- Modelled from the spec: `displaysize.rs` is not under `src/`. Section 3
calls `display_size` an enumerated physical panel geometry (width × height),
and the doc-test in `properties.rs` shows a 128×160 panel. The geometry is
modelled as its width/height data, with `dimensions` returning the pair. -/
structure DisplaySize where
  width : Nat
  height : Nat
deriving DecidableEq, Repr

def DisplaySize.dimensions (s : DisplaySize) : Nat × Nat := (s.width, s.height)

/-- Modelled from the spec: `displayrotation.rs` is not under `src/`. Section 3
lists the four discrete orientations, matched one-to-one by the four arms of
`set_rotation` in `properties.rs`. -/
inductive DisplayRotation
  | Rotate0
  | Rotate90
  | Rotate180
  | Rotate270
deriving DecidableEq, Repr

/-- Modelled from the spec: `command.rs` is not under `src/`. Section 6 lists
the command vocabulary with typed parameters; the byte encoding of each
command is out of scope. -/
inductive Command
  | DisplayClockDiv (a b : Nat)
  | DisplayResolution (size : DisplaySize)
  | PreChargePeriod (a b : Nat)
  | DisplayOn (on_ : Bool)
  | PageAddress (page : Nat)
  | ColumnAddressLow (low : Nat)
  | ColumnAddressHigh (high : Nat)
  | SegmentRemap (remap : Bool)
  | SetCommonScanDir (reverse : Bool)
  | Contrast (value : Nat)
deriving DecidableEq, Repr

/-- One transport write: either a command write or a data write, as seen by
the write-only display interface. -/
inductive Write
  | cmd (c : Command)
  | data (bytes : List Nat)
deriving DecidableEq, Repr

/-- Model of the async write-only transport: a failure schedule mapping the
index of each write attempt to `none` (that attempt succeeds) or `some e`
(that attempt fails with error `e`), together with the number of attempts made
so far and the log of attempted writes in order. -/
structure Iface where
  schedule : Nat → Option DisplayError
  count : Nat
  log : List Write

/-- Attempt one write: it is logged and counted, and the schedule decides
whether it succeeds or which error it fails with. -/
def Iface.write (i : Iface) (w : Write) : Iface × Option DisplayError :=
  ({ i with count := i.count + 1, log := i.log ++ [w] }, i.schedule i.count)

/-- Send a list of commands in order, stopping at the first failing write and
returning its error: the embedding of a straight-line sequence of
`Command::X.send(&mut self.iface).await?` calls. -/
def sendCmds (i : Iface) : List Command → Iface × Option DisplayError
  | [] => (i, none)
  | c :: cs =>
    let r := i.write (Write.cmd c)
    match r.2 with
    | some e => (r.1, some e)
    | none => sendCmds r.1 cs

/-- Wrapping `u8` addition. -/
def u8add (a b : Nat) : Nat := (a + b) % 256

/-- Wrapping `u8` subtraction (for arguments below 256). -/
def u8sub (a b : Nat) : Nat := (a + 256 - b) % 256

/-- State of `DisplayProperties` (src/properties.rs) minus the owned transport
handle, which is threaded separately as `Iface`. The `u8` fields are Nats; the
wrapping arithmetic of the source is made explicit with `u8add`/`u8sub`.
Coordinate pairs are (column, row), with `.1` the column as in Rust's `.0`. -/
structure DisplayProperties where
  display_size : DisplaySize
  display_rotation : DisplayRotation
  draw_area_start : Nat × Nat
  draw_area_end : Nat × Nat
  draw_column : Nat
  draw_row : Nat
deriving DecidableEq, Repr

/-- `DisplayProperties::new`: both draw-area corners and the cursor start at
`(0, 0)`. -/
def new (display_size : DisplaySize) (display_rotation : DisplayRotation) :
    DisplayProperties :=
  { display_size := display_size
    display_rotation := display_rotation
    draw_area_start := (0, 0)
    draw_area_end := (0, 0)
    draw_column := 0
    draw_row := 0 }

/-- `DisplayProperties::send_draw_address`: page address from the cursor row,
then low and high nibble of the cursor column. -/
def send_draw_address (s : DisplayProperties) (i : Iface) :
    Iface × Option DisplayError :=
  sendCmds i
    [Command.PageAddress s.draw_row,
     Command.ColumnAddressLow (s.draw_column % 16),
     Command.ColumnAddressHigh (s.draw_column / 16 % 16)]

/-- `DisplayProperties::set_draw_area`: store the window corners, reset the
cursor to `start`, then send the addressing commands. -/
def set_draw_area (s : DisplayProperties) (i : Iface) (start end_ : Nat × Nat) :
    DisplayProperties × Iface × Option DisplayError :=
  let s1 := { s with draw_area_start := start, draw_area_end := end_,
                     draw_column := start.1, draw_row := start.2 }
  let r := send_draw_address s1 i
  (s1, r.1, r.2)

/-- Result of running `draw` with a given amount of fuel: normal return, an
error propagated from the transport, a Rust panic (the out-of-range slice
index `buffer[..count]`), or fuel exhaustion (the `while` loop still running
after `fuel` iterations). -/
inductive Outcome
  | ok
  | err (e : DisplayError)
  | panicked
  | spin
deriving DecidableEq, Repr

def Outcome.errOf : Outcome → Option DisplayError
  | Outcome.err e => some e
  | _ => none

/-- The cursor-wrap block of `draw` (source lines 88–97, state part): wrap the
column back to the window's start column, advance the row, and wrap the row
back to the window's start row when it reaches the end row. -/
def wrapCursor (s : DisplayProperties) : DisplayProperties :=
  let s2 := { s with draw_column := s.draw_area_start.1 }
  let s3 := { s2 with draw_row := u8add s2.draw_row 1 }
  if s3.draw_row ≥ s3.draw_area_end.2
  then { s3 with draw_row := s3.draw_area_start.2 } else s3

/-- `DisplayProperties::draw`, with explicit fuel for the `while` loop. Each
iteration takes `count = draw_area_end.0 - draw_column` bytes. Rust's
`&buffer[..count]` panics when the buffer holds fewer than `count` bytes, so
that case yields `Outcome.panicked` before any write is attempted. -/
def draw : Nat → DisplayProperties → Iface → List Nat →
    DisplayProperties × Iface × Outcome
  | 0, s, i, buffer => (s, i, if buffer.isEmpty then Outcome.ok else Outcome.spin)
  | fuel + 1, s, i, buffer =>
    if buffer.isEmpty then (s, i, Outcome.ok)
    else
      let count := u8sub s.draw_area_end.1 s.draw_column
      if buffer.length < count then (s, i, Outcome.panicked)
      else
        let r1 := i.write (Write.data (List.take count buffer))
        match r1.2 with
        | some e => (s, r1.1, Outcome.err e)
        | none =>
          let s1 := { s with draw_column := u8add s.draw_column count }
          if s1.draw_column ≥ s1.draw_area_end.1 then
            let s4 := wrapCursor s1
            let r2 := send_draw_address s4 r1.1
            match r2.2 with
            | some e => (s4, r2.1, Outcome.err e)
            | none => draw fuel s4 r2.1 (List.drop count buffer)
          else
            draw fuel s1 r1.1 (List.drop count buffer)

/-- `DisplayProperties::set_rotation`: store the rotation, then send the two
remap commands of the matching arm. -/
def set_rotation (s : DisplayProperties) (i : Iface)
    (display_rotation : DisplayRotation) :
    DisplayProperties × Iface × Option DisplayError :=
  let s1 := { s with display_rotation := display_rotation }
  let r :=
    match display_rotation with
    | DisplayRotation.Rotate0 =>
      sendCmds i [Command.SegmentRemap false, Command.SetCommonScanDir false]
    | DisplayRotation.Rotate90 =>
      sendCmds i [Command.SegmentRemap false, Command.SetCommonScanDir true]
    | DisplayRotation.Rotate180 =>
      sendCmds i [Command.SegmentRemap true, Command.SetCommonScanDir true]
    | DisplayRotation.Rotate270 =>
      sendCmds i [Command.SegmentRemap true, Command.SetCommonScanDir false]
  (s1, r.1, r.2)

/-- `DisplayProperties::init_column_mode`: clock divider, resolution, rotation
application, pre-charge period, display on — aborting at the first failure. -/
def init_column_mode (s : DisplayProperties) (i : Iface) :
    DisplayProperties × Iface × Option DisplayError :=
  let r1 := sendCmds i
    [Command.DisplayClockDiv 6 0, Command.DisplayResolution s.display_size]
  match r1.2 with
  | some e => (s, r1.1, some e)
  | none =>
    let r2 := set_rotation s r1.1 s.display_rotation
    match r2.2.2 with
    | some e => (r2.1, r2.2.1, some e)
    | none =>
      let r3 := sendCmds r2.2.1
        [Command.PreChargePeriod 8 2, Command.DisplayOn true]
      (r2.1, r3.1, r3.2)

/-- `DisplayProperties::get_size`. -/
def get_size (s : DisplayProperties) : DisplaySize := s.display_size

/-- `DisplayProperties::get_dimensions`: swap width and height when the
rotation is 90° or 270°. -/
def get_dimensions (s : DisplayProperties) : Nat × Nat :=
  let d := s.display_size.dimensions
  match s.display_rotation with
  | DisplayRotation.Rotate0 | DisplayRotation.Rotate180 => (d.1, d.2)
  | DisplayRotation.Rotate90 | DisplayRotation.Rotate270 => (d.2, d.1)

/-- `DisplayProperties::get_rotation`. -/
def get_rotation (s : DisplayProperties) : DisplayRotation := s.display_rotation

/-- `DisplayProperties::display_on`: a single `DisplayOn` command. -/
def display_on (s : DisplayProperties) (i : Iface) (on_ : Bool) :
    DisplayProperties × Iface × Option DisplayError :=
  let r := i.write (Write.cmd (Command.DisplayOn on_))
  (s, r.1, r.2)

/-- `DisplayProperties::set_contrast`: a single `Contrast` command. -/
def set_contrast (s : DisplayProperties) (i : Iface) (contrast : Nat) :
    DisplayProperties × Iface × Option DisplayError :=
  let r := i.write (Write.cmd (Command.Contrast contrast))
  (s, r.1, r.2)

/-- The always-succeeding transport schedule. -/
def allOk : Nat → Option DisplayError := fun _ => none

/-- Schedule that fails exactly the write with index `k`, with error `e`. -/
def failAt (k : Nat) (e : DisplayError) : Nat → Option DisplayError :=
  fun n => if n = k then some e else none

/-- A fresh transport with the given schedule: no writes attempted yet. -/
def mkIface (schedule : Nat → Option DisplayError) : Iface :=
  { schedule := schedule, count := 0, log := [] }

/-- The remap-bit table of spec §4.3, stated from the spec's table for
comparison with the behaviour of `set_rotation`: the pair is (segment-remap,
scan-dir-reverse). -/
def remapTable : DisplayRotation → Bool × Bool
  | DisplayRotation.Rotate0 => (false, false)
  | DisplayRotation.Rotate90 => (false, true)
  | DisplayRotation.Rotate180 => (true, true)
  | DisplayRotation.Rotate270 => (true, false)

/-- Under an all-success schedule, `sendCmds` succeeds, preserves the
schedule, counts one attempt per command, and appends exactly its commands to
the log. -/
theorem sendCmds_ok_spec (cs : List Command) (i : Iface)
    (hi : ∀ n, i.schedule n = none) :
    (sendCmds i cs).2 = none ∧ ((sendCmds i cs).1).schedule = i.schedule ∧
      ((sendCmds i cs).1).count = i.count + cs.length ∧
      ((sendCmds i cs).1).log = i.log ++ cs.map Write.cmd := by
  induction cs generalizing i with
  | nil => simp [sendCmds]
  | cons c cs ih =>
    have h0 : i.schedule i.count = none := hi _
    have hred : sendCmds i (c :: cs) = sendCmds ((i.write (Write.cmd c)).1) cs := by
      simp [sendCmds, Iface.write, h0]
    rw [hred]
    obtain ⟨h1, h2, h3, h4⟩ := ih ((i.write (Write.cmd c)).1) (fun n => hi n)
    refine ⟨h1, ?_, ?_, ?_⟩
    · simpa [Iface.write] using h2
    · rw [h3]
      show i.count + 1 + cs.length = i.count + (c :: cs).length
      rw [List.length_cons]
      omega
    · rw [h4]
      show (i.log ++ [Write.cmd c]) ++ List.map Write.cmd cs = _
      simp

/-- `sendCmds` never changes the failure schedule. -/
theorem sendCmds_schedule (cs : List Command) (i : Iface) :
    ((sendCmds i cs).1).schedule = i.schedule := by
  induction cs generalizing i with
  | nil => rfl
  | cons c cs ih =>
    cases h : i.schedule i.count with
    | none =>
      have hred : sendCmds i (c :: cs) = sendCmds ((i.write (Write.cmd c)).1) cs := by
        simp [sendCmds, Iface.write, h]
      rw [hred, ih]
      rfl
    | some e =>
      have hred : sendCmds i (c :: cs) = ((i.write (Write.cmd c)).1, some e) := by
        simp [sendCmds, Iface.write, h]
      rw [hred]
      rfl

/-- Under an all-success schedule, the three addressing commands all go out:
no error, schedule preserved, three attempts counted, the three commands
appended to the log. -/
theorem send_draw_address_ok (s : DisplayProperties) (i : Iface)
    (hi : ∀ n, i.schedule n = none) :
    (send_draw_address s i).2 = none ∧
      ((send_draw_address s i).1).schedule = i.schedule ∧
      ((send_draw_address s i).1).count = i.count + 3 ∧
      ((send_draw_address s i).1).log =
        i.log ++ [Write.cmd (Command.PageAddress s.draw_row),
                  Write.cmd (Command.ColumnAddressLow (s.draw_column % 16)),
                  Write.cmd (Command.ColumnAddressHigh (s.draw_column / 16 % 16))] := by
  simpa [send_draw_address] using sendCmds_ok_spec
    [Command.PageAddress s.draw_row,
     Command.ColumnAddressLow (s.draw_column % 16),
     Command.ColumnAddressHigh (s.draw_column / 16 % 16)] i hi

@[simp] theorem wrapCursor_draw_column (s : DisplayProperties) :
    (wrapCursor s).draw_column = s.draw_area_start.1 := by
  simp only [wrapCursor]
  split <;> rfl

@[simp] theorem wrapCursor_draw_area_start (s : DisplayProperties) :
    (wrapCursor s).draw_area_start = s.draw_area_start := by
  simp only [wrapCursor]
  split <;> rfl

@[simp] theorem wrapCursor_draw_area_end (s : DisplayProperties) :
    (wrapCursor s).draw_area_end = s.draw_area_end := by
  simp only [wrapCursor]
  split <;> rfl

@[simp] theorem wrapCursor_display_size (s : DisplayProperties) :
    (wrapCursor s).display_size = s.display_size := by
  simp only [wrapCursor]
  split <;> rfl

/-- Drawing an empty buffer performs no writes and returns success. -/
theorem draw_nil (fuel : Nat) (s : DisplayProperties) (i : Iface) :
    draw fuel s i [] = (s, i, Outcome.ok) := by
  cases fuel <;> simp [draw]

/-- Unfolding of a `draw` iteration whose data write fails. -/
theorem draw_succ_writeFail (f : Nat) (s : DisplayProperties) (i : Iface)
    (buffer : List Nat) (e : DisplayError) (hb : buffer.isEmpty = false)
    (hlen : ¬ buffer.length < u8sub s.draw_area_end.1 s.draw_column)
    (hw : i.schedule i.count = some e) :
    draw (f + 1) s i buffer =
      (s, (i.write (Write.data
          (List.take (u8sub s.draw_area_end.1 s.draw_column) buffer))).1,
       Outcome.err e) := by
  simp [draw, hb, hlen, Iface.write, hw]

/-- Unfolding of a `draw` iteration whose data write succeeds and whose column
reaches the window end: the cursor wraps and the addressing sequence is sent
before the loop continues. -/
theorem draw_succ_wrap (f : Nat) (s : DisplayProperties) (i : Iface)
    (buffer : List Nat) (hb : buffer.isEmpty = false)
    (hlen : ¬ buffer.length < u8sub s.draw_area_end.1 s.draw_column)
    (hw : i.schedule i.count = none)
    (hwrap : u8add s.draw_column (u8sub s.draw_area_end.1 s.draw_column) ≥
      s.draw_area_end.1)
    {i2 : Iface} {r2 : Option DisplayError}
    (hr : send_draw_address
        (wrapCursor { s with draw_column := u8add s.draw_column (u8sub s.draw_area_end.1 s.draw_column) })
        ((i.write (Write.data
          (List.take (u8sub s.draw_area_end.1 s.draw_column) buffer))).1) =
      (i2, r2)) :
    draw (f + 1) s i buffer =
      match r2 with
      | some e =>
        (wrapCursor { s with draw_column := u8add s.draw_column (u8sub s.draw_area_end.1 s.draw_column) },
         i2, Outcome.err e)
      | none =>
        draw f
          (wrapCursor { s with draw_column := u8add s.draw_column (u8sub s.draw_area_end.1 s.draw_column) })
          i2 (List.drop (u8sub s.draw_area_end.1 s.draw_column) buffer) := by
  simp only [Iface.write] at hr
  simp [draw, hb, hlen, Iface.write, hw, hwrap, hr]
  cases r2 <;> rfl

/-- Unfolding of a `draw` iteration whose data write succeeds without the
column reaching the window end: no wrap, no address refresh. -/
theorem draw_succ_nowrap (f : Nat) (s : DisplayProperties) (i : Iface)
    (buffer : List Nat) (hb : buffer.isEmpty = false)
    (hlen : ¬ buffer.length < u8sub s.draw_area_end.1 s.draw_column)
    (hw : i.schedule i.count = none)
    (hwrap : ¬ u8add s.draw_column (u8sub s.draw_area_end.1 s.draw_column) ≥
      s.draw_area_end.1) :
    draw (f + 1) s i buffer =
      draw f
        { s with draw_column := u8add s.draw_column (u8sub s.draw_area_end.1 s.draw_column) }
        ((i.write (Write.data
          (List.take (u8sub s.draw_area_end.1 s.draw_column) buffer))).1)
        (List.drop (u8sub s.draw_area_end.1 s.draw_column) buffer) := by
  simp [draw, hb, hlen, Iface.write, hw, hwrap]

/-- Claim C2: after `set_draw_area((0,0),(4,2))`, drawing an 8-byte buffer
with all transport writes succeeding produces exactly two 4-byte data writes,
with one address refresh between them (after the first 4 bytes) and one more
after the last 4 bytes, terminating with the cursor wrapped to
`(draw_column, draw_row) = (0, 0)`. The log shown includes the three
addressing commands sent by `set_draw_area` itself. -/
theorem C2_draw_two_chunks :
    ((draw 3
        (set_draw_area (new ⟨128, 160⟩ DisplayRotation.Rotate0) (mkIface allOk)
          (0, 0) (4, 2)).1
        (set_draw_area (new ⟨128, 160⟩ DisplayRotation.Rotate0) (mkIface allOk)
          (0, 0) (4, 2)).2.1
        [0, 1, 2, 3, 4, 5, 6, 7]).2.1).log =
      [Write.cmd (Command.PageAddress 0), Write.cmd (Command.ColumnAddressLow 0),
       Write.cmd (Command.ColumnAddressHigh 0),
       Write.data [0, 1, 2, 3],
       Write.cmd (Command.PageAddress 1), Write.cmd (Command.ColumnAddressLow 0),
       Write.cmd (Command.ColumnAddressHigh 0),
       Write.data [4, 5, 6, 7],
       Write.cmd (Command.PageAddress 0), Write.cmd (Command.ColumnAddressLow 0),
       Write.cmd (Command.ColumnAddressHigh 0)] ∧
    (draw 3
        (set_draw_area (new ⟨128, 160⟩ DisplayRotation.Rotate0) (mkIface allOk)
          (0, 0) (4, 2)).1
        (set_draw_area (new ⟨128, 160⟩ DisplayRotation.Rotate0) (mkIface allOk)
          (0, 0) (4, 2)).2.1
        [0, 1, 2, 3, 4, 5, 6, 7]).2.2 = Outcome.ok ∧
    ((draw 3
        (set_draw_area (new ⟨128, 160⟩ DisplayRotation.Rotate0) (mkIface allOk)
          (0, 0) (4, 2)).1
        (set_draw_area (new ⟨128, 160⟩ DisplayRotation.Rotate0) (mkIface allOk)
          (0, 0) (4, 2)).2.1
        [0, 1, 2, 3, 4, 5, 6, 7]).1).draw_column = 0 ∧
    ((draw 3
        (set_draw_area (new ⟨128, 160⟩ DisplayRotation.Rotate0) (mkIface allOk)
          (0, 0) (4, 2)).1
        (set_draw_area (new ⟨128, 160⟩ DisplayRotation.Rotate0) (mkIface allOk)
          (0, 0) (4, 2)).2.1
        [0, 1, 2, 3, 4, 5, 6, 7]).1).draw_row = 0 :=
  ⟨rfl, rfl, rfl, rfl⟩

/-- Claim C6: for every rotation, `set_rotation` issues exactly two remap
commands, segment-remap first and then scan-direction, with the boolean pair
given by the table (false,false) for 0°, (false,true) for 90°, (true,true)
for 180°, (true,false) for 270°. -/
theorem C6_set_rotation_remap (s : DisplayProperties) (i : Iface)
    (r : DisplayRotation) (hi : ∀ n, i.schedule n = none) :
    ((set_rotation s i r).2.1).log =
      i.log ++ [Write.cmd (Command.SegmentRemap (remapTable r).1),
                Write.cmd (Command.SetCommonScanDir (remapTable r).2)] ∧
    ((set_rotation s i r).2.1).count = i.count + 2 ∧
    (set_rotation s i r).2.2 = none := by
  cases r <;>
    · obtain ⟨h1, h2, h3, h4⟩ := sendCmds_ok_spec _ i hi
      exact ⟨by simpa [remapTable] using h4, by simpa using h3, h1⟩

theorem C6_witness :
    ((set_rotation (new ⟨128, 160⟩ DisplayRotation.Rotate0) (mkIface allOk)
        DisplayRotation.Rotate90).2.1).log =
      [Write.cmd (Command.SegmentRemap false),
       Write.cmd (Command.SetCommonScanDir true)] ∧
    ((set_rotation (new ⟨128, 160⟩ DisplayRotation.Rotate0) (mkIface allOk)
        DisplayRotation.Rotate90).2.1).count = 2 ∧
    (set_rotation (new ⟨128, 160⟩ DisplayRotation.Rotate0) (mkIface allOk)
        DisplayRotation.Rotate90).2.2 = none := by
  have h := C6_set_rotation_remap (new ⟨128, 160⟩ DisplayRotation.Rotate0)
    (mkIface allOk) DisplayRotation.Rotate90 (fun _ => rfl)
  simpa [mkIface, remapTable] using h

/-- Claim C7: `set_draw_area(start, end)` stores `start` and `end` as the new
active window, resets the cursor to `(start.col, start.row)`, and issues the
addressing sequence — page address with the cursor row, then the low and high
nibbles of the cursor column — before returning. -/
theorem C7_set_draw_area_spec (s : DisplayProperties) (i : Iface)
    (start end_ : Nat × Nat) (hi : ∀ n, i.schedule n = none) :
    (set_draw_area s i start end_).1.draw_area_start = start ∧
    (set_draw_area s i start end_).1.draw_area_end = end_ ∧
    (set_draw_area s i start end_).1.draw_column = start.1 ∧
    (set_draw_area s i start end_).1.draw_row = start.2 ∧
    ((set_draw_area s i start end_).2.1).log =
      i.log ++ [Write.cmd (Command.PageAddress start.2),
                Write.cmd (Command.ColumnAddressLow (start.1 % 16)),
                Write.cmd (Command.ColumnAddressHigh (start.1 / 16 % 16))] ∧
    (set_draw_area s i start end_).2.2 = none := by
  obtain ⟨h1, h2, h3, h4⟩ := sendCmds_ok_spec
    [Command.PageAddress start.2,
     Command.ColumnAddressLow (start.1 % 16),
     Command.ColumnAddressHigh (start.1 / 16 % 16)] i hi
  exact ⟨rfl, rfl, rfl, rfl, by simpa using h4, h1⟩

theorem C7_witness :
    (set_draw_area (new ⟨128, 160⟩ DisplayRotation.Rotate0) (mkIface allOk)
        (35, 2) (60, 5)).1.draw_area_start = (35, 2) ∧
    (set_draw_area (new ⟨128, 160⟩ DisplayRotation.Rotate0) (mkIface allOk)
        (35, 2) (60, 5)).1.draw_area_end = (60, 5) ∧
    (set_draw_area (new ⟨128, 160⟩ DisplayRotation.Rotate0) (mkIface allOk)
        (35, 2) (60, 5)).1.draw_column = 35 ∧
    (set_draw_area (new ⟨128, 160⟩ DisplayRotation.Rotate0) (mkIface allOk)
        (35, 2) (60, 5)).1.draw_row = 2 ∧
    ((set_draw_area (new ⟨128, 160⟩ DisplayRotation.Rotate0) (mkIface allOk)
        (35, 2) (60, 5)).2.1).log =
      [Write.cmd (Command.PageAddress 2),
       Write.cmd (Command.ColumnAddressLow 3),
       Write.cmd (Command.ColumnAddressHigh 2)] ∧
    (set_draw_area (new ⟨128, 160⟩ DisplayRotation.Rotate0) (mkIface allOk)
        (35, 2) (60, 5)).2.2 = none := by
  have h := C7_set_draw_area_spec (new ⟨128, 160⟩ DisplayRotation.Rotate0)
    (mkIface allOk) (35, 2) (60, 5) (fun _ => rfl)
  simpa [mkIface] using h

/-- Claim C8: `get_dimensions` returns the stored dimensions as-is for 0°/180°
and swapped for 90°/270°, and neither this accessor nor a rotation change
mutates the stored geometry. -/
theorem C8_get_dimensions_spec (s : DisplayProperties) :
    get_dimensions s =
      (if s.display_rotation = DisplayRotation.Rotate90 ∨
          s.display_rotation = DisplayRotation.Rotate270
       then ((s.display_size.dimensions).2, (s.display_size.dimensions).1)
       else s.display_size.dimensions) ∧
    (∀ i r, ((set_rotation s i r).1).display_size = s.display_size) ∧
    (∀ i r, get_size ((set_rotation s i r).1) = get_size s) := by
  refine ⟨?_, fun i r => rfl, fun i r => rfl⟩
  cases h : s.display_rotation <;>
    simp [get_dimensions, h, DisplaySize.dimensions]

theorem C8_witness :
    get_dimensions (new ⟨128, 160⟩ DisplayRotation.Rotate90) = (160, 128) ∧
    ((set_rotation (new ⟨128, 160⟩ DisplayRotation.Rotate0) (mkIface allOk)
        DisplayRotation.Rotate270).1).display_size = ⟨128, 160⟩ := by
  have h := C8_get_dimensions_spec (new ⟨128, 160⟩ DisplayRotation.Rotate90)
  have h2 := C8_get_dimensions_spec (new ⟨128, 160⟩ DisplayRotation.Rotate0)
  exact ⟨by simpa [new, DisplaySize.dimensions] using h.1,
    by simpa using h2.2.1 (mkIface allOk) DisplayRotation.Rotate270⟩

/-- Claim C9: `set_rotation` stores the new rotation before issuing the two
remap commands, so even when a command write fails and its error is returned,
`get_rotation` afterwards reports the new rotation — the state change is not
rolled back on error. -/
theorem C9_rotation_stored_before_send (s : DisplayProperties) (i : Iface)
    (r : DisplayRotation) :
    get_rotation ((set_rotation s i r).1) = r ∧
    (∀ e, (set_rotation s i r).2.2 = some e →
      get_rotation ((set_rotation s i r).1) = r) ∧
    (∀ e, (set_rotation s (mkIface (failAt 0 e)) r).2.2 = some e ∧
      get_rotation ((set_rotation s (mkIface (failAt 0 e)) r).1) = r ∧
      (set_rotation s (mkIface (failAt 1 e)) r).2.2 = some e ∧
      get_rotation ((set_rotation s (mkIface (failAt 1 e)) r).1) = r) := by
  refine ⟨rfl, fun e _ => rfl, fun e => ?_⟩
  cases r <;> exact ⟨rfl, rfl, rfl, rfl⟩

theorem C9_witness :
    get_rotation ((set_rotation (new ⟨128, 160⟩ DisplayRotation.Rotate0)
        (mkIface (failAt 0 ⟨7⟩)) DisplayRotation.Rotate180).1) =
      DisplayRotation.Rotate180 ∧
    (set_rotation (new ⟨128, 160⟩ DisplayRotation.Rotate0)
        (mkIface (failAt 0 ⟨7⟩)) DisplayRotation.Rotate180).2.2 = some ⟨7⟩ := by
  have h := C9_rotation_stored_before_send (new ⟨128, 160⟩ DisplayRotation.Rotate0)
    (mkIface (failAt 0 ⟨7⟩)) DisplayRotation.Rotate180
  exact ⟨h.1, (h.2.2 ⟨7⟩).1⟩

/-- Claim C10: `display_on` and `set_contrast` each issue exactly one
transport command (`DisplayOn` and `Contrast` respectively) and leave the
whole `DisplayProperties` state unchanged. -/
theorem C10_power_contrast_pass_through (s : DisplayProperties) (i : Iface)
    (b : Bool) (c : Nat) :
    (display_on s i b).1 = s ∧
    ((display_on s i b).2.1).log = i.log ++ [Write.cmd (Command.DisplayOn b)] ∧
    ((display_on s i b).2.1).count = i.count + 1 ∧
    (set_contrast s i c).1 = s ∧
    ((set_contrast s i c).2.1).log = i.log ++ [Write.cmd (Command.Contrast c)] ∧
    ((set_contrast s i c).2.1).count = i.count + 1 :=
  ⟨rfl, rfl, rfl, rfl, rfl, rfl⟩

theorem C10_witness :
    (display_on (new ⟨128, 160⟩ DisplayRotation.Rotate0) (mkIface allOk)
        true).1 = new ⟨128, 160⟩ DisplayRotation.Rotate0 ∧
    ((display_on (new ⟨128, 160⟩ DisplayRotation.Rotate0) (mkIface allOk)
        true).2.1).log = [Write.cmd (Command.DisplayOn true)] ∧
    (set_contrast (new ⟨128, 160⟩ DisplayRotation.Rotate0) (mkIface allOk)
        77).1 = new ⟨128, 160⟩ DisplayRotation.Rotate0 ∧
    ((set_contrast (new ⟨128, 160⟩ DisplayRotation.Rotate0) (mkIface allOk)
        77).2.1).log = [Write.cmd (Command.Contrast 77)] := by
  have h := C10_power_contrast_pass_through
    (new ⟨128, 160⟩ DisplayRotation.Rotate0) (mkIface allOk) true 77
  exact ⟨h.1, by simpa [mkIface] using h.2.1, h.2.2.2.1,
    by simpa [mkIface] using h.2.2.2.2.1⟩

/-- The display state after `set_draw_area((2,0),(6,1))` on a fresh 128×160
display: window start (2,0), end (6,1), cursor at column 2, row 0. -/
def c1State : DisplayProperties :=
  (set_draw_area (new ⟨128, 160⟩ DisplayRotation.Rotate0) (mkIface allOk)
    (2, 0) (6, 1)).1

/-- The transport after that `set_draw_area`: three addressing commands sent,
all succeeding. -/
def c1Iface : Iface :=
  (set_draw_area (new ⟨128, 160⟩ DisplayRotation.Rotate0) (mkIface allOk)
    (2, 0) (6, 1)).2.1

/-- Claim C1 is false at its own concrete input: after
`set_draw_area((2,0),(6,1))`, drawing a 3-byte buffer (shorter than
`count = 6 − 2 = 4`) does not perform a 3-byte data write ending at column 5;
the slice index `buffer[..4]` is out of range, so `draw` panics before any
write is attempted — outcome `panicked`, nothing new logged, cursor still at
column 2. -/
theorem C1_counterexample :
    (draw 1 c1State c1Iface [0, 1, 2]).2.2 = Outcome.panicked ∧
    ((draw 1 c1State c1Iface [0, 1, 2]).1).draw_column = 2 ∧
    ((draw 1 c1State c1Iface [0, 1, 2]).2.1).log = c1Iface.log ∧
    ((draw 1 c1State c1Iface [0, 1, 2]).1).draw_column ≠ 5 :=
  ⟨rfl, rfl, rfl, by decide⟩

/-- Claim C1 (amended): for every call to `draw(buffer)` where the remaining
buffer is non-empty and shorter than `count = draw_area_end.col − draw_column`,
the slice index `buffer[..count]` is out of range and the operation panics
before attempting any transport write, leaving the state and the transport
unchanged; in particular, after `set_draw_area((2,0),(6,1))`, `draw` of a
3-byte buffer panics with no data write and the cursor still at column 2. -/
theorem C1_short_buffer_panics (fuel : Nat) (s : DisplayProperties) (i : Iface)
    (buffer : List Nat) (hfuel : 0 < fuel) (hne : buffer ≠ [])
    (hshort : buffer.length < u8sub s.draw_area_end.1 s.draw_column) :
    draw fuel s i buffer = (s, i, Outcome.panicked) := by
  cases fuel with
  | zero => exact absurd hfuel (by omega)
  | succ f =>
    have hb : buffer.isEmpty = false := by
      cases buffer with
      | nil => exact absurd rfl hne
      | cons a l => rfl
    simp [draw, hb, hshort]

theorem C1_witness :
    0 < 1 ∧ ([0, 1, 2] : List Nat) ≠ [] ∧
    ([0, 1, 2] : List Nat).length <
      u8sub c1State.draw_area_end.1 c1State.draw_column ∧
    draw 1 c1State c1Iface [0, 1, 2] = (c1State, c1Iface, Outcome.panicked) :=
  ⟨by decide, by decide, by decide,
   C1_short_buffer_panics 1 c1State c1Iface [0, 1, 2] (by decide) (by decide)
     (by decide)⟩

/-- A state whose cursor column equals the window's end column while the
window's start column differs: start (0,0), end (4,1), cursor at column 4. -/
def c3State : DisplayProperties :=
  { display_size := ⟨128, 160⟩
    display_rotation := DisplayRotation.Rotate0
    draw_area_start := (0, 0)
    draw_area_end := (4, 1)
    draw_column := 4
    draw_row := 0 }

/-- Claim C3 as stated is false: its hypothesis only requires
`draw_column = draw_area_end.col`, but when `draw_area_start.col` differs,
the first iteration's wrap moves the cursor to the start column and the loop
then makes progress. Here a 4-byte draw from such a state (all writes
succeeding) terminates successfully. -/
theorem C3_counterexample :
    c3State.draw_column = c3State.draw_area_end.1 ∧
    ([9, 9, 9, 9] : List Nat) ≠ [] ∧
    (draw 3 c3State (mkIface allOk) [9, 9, 9, 9]).2.2 = Outcome.ok :=
  ⟨rfl, by decide, rfl⟩

/-- Claim C3 (amended): for a state in which the window's start column, the
window's end column and the cursor column coincide (as `u8` values) — in
particular the state produced by `new()`, where all three are 0 — `draw` with
any non-empty buffer never terminates when all transport writes succeed:
every iteration computes `count = 0`, performs a zero-length data write,
wraps the cursor, refreshes the address, and leaves the buffer unchanged, so
the loop exhausts any amount of fuel. -/
theorem C3_draw_never_terminates (fuel : Nat) (s : DisplayProperties)
    (i : Iface) (buffer : List Nat)
    (hstart : s.draw_area_start.1 = s.draw_column)
    (hend : s.draw_area_end.1 = s.draw_column) (hcol : s.draw_column < 256)
    (hi : ∀ n, i.schedule n = none) (hne : buffer ≠ []) :
    (draw fuel s i buffer).2.2 = Outcome.spin := by
  induction fuel generalizing s i with
  | zero =>
    have hb : buffer.isEmpty = false := by
      cases buffer with
      | nil => exact absurd rfl hne
      | cons a l => rfl
    simp [draw, hb]
  | succ f ih =>
    have hb : buffer.isEmpty = false := by
      cases buffer with
      | nil => exact absurd rfl hne
      | cons a l => rfl
    have hcnt : u8sub s.draw_area_end.1 s.draw_column = 0 := by
      rw [hend]
      unfold u8sub
      omega
    have hlen : ¬ buffer.length < u8sub s.draw_area_end.1 s.draw_column := by
      rw [hcnt]
      omega
    have hadd : u8add s.draw_column (u8sub s.draw_area_end.1 s.draw_column) =
        s.draw_column := by
      rw [hcnt]
      unfold u8add
      omega
    have hwrap : u8add s.draw_column (u8sub s.draw_area_end.1 s.draw_column) ≥
        s.draw_area_end.1 := by
      rw [hadd, hend]
    rcases hr : send_draw_address
        (wrapCursor { s with draw_column := u8add s.draw_column (u8sub s.draw_area_end.1 s.draw_column) })
        ((i.write (Write.data
          (List.take (u8sub s.draw_area_end.1 s.draw_column) buffer))).1)
      with ⟨i2, r2⟩
    have hi1 : ∀ n, ((i.write (Write.data
        (List.take (u8sub s.draw_area_end.1 s.draw_column) buffer))).1).schedule
          n = none := fun n => hi n
    have hok := send_draw_address_ok
      (wrapCursor { s with draw_column := u8add s.draw_column (u8sub s.draw_area_end.1 s.draw_column) })
      ((i.write (Write.data
        (List.take (u8sub s.draw_area_end.1 s.draw_column) buffer))).1) hi1
    rw [hr] at hok
    have hr2 : r2 = none := hok.1
    subst hr2
    rw [draw_succ_wrap f s i buffer hb hlen (hi i.count) hwrap hr]
    have hsch : i2.schedule = ((i.write (Write.data
        (List.take (u8sub s.draw_area_end.1 s.draw_column) buffer))).1).schedule :=
      hok.2.1
    have hdrop : List.drop (u8sub s.draw_area_end.1 s.draw_column) buffer =
        buffer := by
      rw [hcnt]
      rfl
    rw [hdrop]
    exact ih
      (wrapCursor { s with draw_column := u8add s.draw_column (u8sub s.draw_area_end.1 s.draw_column) })
      i2 (by simp) (by simp [hend, hstart]) (by simpa [hstart] using hcol)
      (fun n => by rw [hsch]; exact hi n)

theorem C3_witness :
    (new ⟨128, 160⟩ DisplayRotation.Rotate0).draw_area_start.1 =
      (new ⟨128, 160⟩ DisplayRotation.Rotate0).draw_column ∧
    (new ⟨128, 160⟩ DisplayRotation.Rotate0).draw_area_end.1 =
      (new ⟨128, 160⟩ DisplayRotation.Rotate0).draw_column ∧
    (new ⟨128, 160⟩ DisplayRotation.Rotate0).draw_column < 256 ∧
    ([1, 2, 3] : List Nat) ≠ [] ∧
    (draw 7 (new ⟨128, 160⟩ DisplayRotation.Rotate0) (mkIface allOk)
        [1, 2, 3]).2.2 = Outcome.spin :=
  ⟨rfl, rfl, by decide, by decide,
   C3_draw_never_terminates 7 (new ⟨128, 160⟩ DisplayRotation.Rotate0)
     (mkIface allOk) [1, 2, 3] rfl rfl (by decide) (fun _ => rfl) (by decide)⟩

/-- The window state of the 8-byte streaming scenario: start (0,0), end
(4,2), cursor at the window start. -/
def c5State : DisplayProperties :=
  { display_size := ⟨128, 160⟩
    display_rotation := DisplayRotation.Rotate0
    draw_area_start := (0, 0)
    draw_area_end := (4, 2)
    draw_column := 0
    draw_row := 0 }

/-- Claim C5: every successful `draw` of a non-empty buffer (on `u8`-valued
columns) ends with `draw_column` equal to the window's start column: each
completed iteration transfers exactly `count` bytes, landing the column
exactly on `draw_area_end.col` and wrapping it, so a successful draw never
leaves the cursor strictly between the window's start and end columns. -/
theorem C5_success_wraps_column (fuel : Nat) (s : DisplayProperties)
    (i : Iface) (buffer : List Nat) (hcol : s.draw_column < 256)
    (hstart : s.draw_area_start.1 < 256) (hend : s.draw_area_end.1 < 256)
    (hne : buffer ≠ []) (hok : (draw fuel s i buffer).2.2 = Outcome.ok) :
    ((draw fuel s i buffer).1).draw_column = s.draw_area_start.1 := by
  induction fuel generalizing s i buffer with
  | zero =>
    have hb : buffer.isEmpty = false := by
      cases buffer with
      | nil => exact absurd rfl hne
      | cons a l => rfl
    simp [draw, hb] at hok
  | succ f ih =>
    have hb : buffer.isEmpty = false := by
      cases buffer with
      | nil => exact absurd rfl hne
      | cons a l => rfl
    by_cases hlen : buffer.length < u8sub s.draw_area_end.1 s.draw_column
    · have hpanic : draw (f + 1) s i buffer = (s, i, Outcome.panicked) := by
        simp [draw, hb, hlen]
      rw [hpanic] at hok
      exact absurd hok (by simp)
    · cases hw : i.schedule i.count with
      | some e =>
        rw [draw_succ_writeFail f s i buffer e hb hlen hw] at hok
        exact absurd hok (by simp)
      | none =>
        have hkey : u8add s.draw_column (u8sub s.draw_area_end.1 s.draw_column)
            = s.draw_area_end.1 := by
          unfold u8add u8sub
          omega
        have hwrap : u8add s.draw_column
            (u8sub s.draw_area_end.1 s.draw_column) ≥ s.draw_area_end.1 := by
          rw [hkey]
        rcases hr : send_draw_address
            (wrapCursor { s with draw_column := u8add s.draw_column (u8sub s.draw_area_end.1 s.draw_column) })
            ((i.write (Write.data
              (List.take (u8sub s.draw_area_end.1 s.draw_column) buffer))).1)
          with ⟨i2, r2⟩
        rw [draw_succ_wrap f s i buffer hb hlen hw hwrap hr] at hok ⊢
        cases r2 with
        | some e => exact absurd hok (by simp)
        | none =>
          by_cases hdrop :
              List.drop (u8sub s.draw_area_end.1 s.draw_column) buffer = []
          · rw [hdrop]
            rw [draw_nil]
            simp
          · have hres := ih
              (wrapCursor { s with draw_column := u8add s.draw_column (u8sub s.draw_area_end.1 s.draw_column) })
              i2 (List.drop (u8sub s.draw_area_end.1 s.draw_column) buffer)
              (by simpa using hstart) (by simpa using hstart)
              (by simpa using hend) hdrop hok
            exact hres.trans (by simp)

theorem C5_witness :
    c5State.draw_column < 256 ∧ c5State.draw_area_start.1 < 256 ∧
    c5State.draw_area_end.1 < 256 ∧
    ([0, 1, 2, 3, 4, 5, 6, 7] : List Nat) ≠ [] ∧
    (draw 3 c5State (mkIface allOk) [0, 1, 2, 3, 4, 5, 6, 7]).2.2 =
      Outcome.ok ∧
    ((draw 3 c5State (mkIface allOk) [0, 1, 2, 3, 4, 5, 6, 7]).1).draw_column =
      c5State.draw_area_start.1 :=
  ⟨by decide, by decide, by decide, by decide, rfl,
   C5_success_wraps_column 3 c5State (mkIface allOk) [0, 1, 2, 3, 4, 5, 6, 7]
     (by decide) (by decide) (by decide) (by decide) rfl⟩

/-- Every write attempted between indices `a` (inclusive) and `b` (exclusive)
succeeds under schedule `f`. -/
def noFailBetween (f : Nat → Option DisplayError) (a b : Nat) : Prop :=
  ∀ n, a ≤ n → n < b → f n = none

/-- The run from transport `i` to transport `i'` with result `oe` attempted a
consecutive block of writes and stopped at the first scheduled failure: the
schedule is untouched; on success every attempted write succeeded; on error
`e` the last attempted write is the first whose schedule entry is `some e`,
and that entry is returned verbatim with no later write attempted. -/
def abortsOn (i i' : Iface) (oe : Option DisplayError) : Prop :=
  i.count ≤ i'.count ∧ i'.schedule = i.schedule ∧
    (oe = none → noFailBetween i.schedule i.count i'.count) ∧
    ∀ e, oe = some e →
      i.count < i'.count ∧ i.schedule (i'.count - 1) = some e ∧
        noFailBetween i.schedule i.count (i'.count - 1)

theorem abortsOn_refl (i : Iface) : abortsOn i i none := by
  refine ⟨Nat.le_refl _, rfl, fun _ n h1 h2 => absurd h2 (by omega), ?_⟩
  intro e he
  exact absurd he (by simp)

theorem abortsOn_write (i : Iface) (w : Write) :
    abortsOn i ((i.write w).1) ((i.write w).2) := by
  have hc : ((i.write w).1).count = i.count + 1 := rfl
  have hs : (i.write w).2 = i.schedule i.count := rfl
  refine ⟨by omega, rfl, ?_, ?_⟩
  · intro h n h1 h2
    have hn : n = i.count := by omega
    rw [hn]
    rw [hs] at h
    exact h
  · intro e he
    rw [hs] at he
    refine ⟨by omega, ?_, ?_⟩
    · have hm : ((i.write w).1).count - 1 = i.count := by omega
      rw [hm]
      exact he
    · intro n h1 h2
      exact absurd h2 (by omega)

theorem abortsOn_comp {i i1 i2 : Iface} {oe : Option DisplayError}
    (h1 : abortsOn i i1 none) (h2 : abortsOn i1 i2 oe) : abortsOn i i2 oe := by
  obtain ⟨hle1, hsch1, hnf1, -⟩ := h1
  obtain ⟨hle2, hsch2, hnf2, herr2⟩ := h2
  have hnf1' := hnf1 rfl
  refine ⟨by omega, by rw [hsch2, hsch1], ?_, ?_⟩
  · intro h n ha hb
    by_cases hc : n < i1.count
    · exact hnf1' n ha hc
    · have hmid := hnf2 h n (by omega) hb
      rw [hsch1] at hmid
      exact hmid
  · intro e he
    obtain ⟨hlt, hat, hbefore⟩ := herr2 e he
    refine ⟨by omega, ?_, ?_⟩
    · rw [← hsch1]
      exact hat
    · intro n ha hb
      by_cases hc : n < i1.count
      · exact hnf1' n ha hc
      · have hmid := hbefore n (by omega) hb
        rw [hsch1] at hmid
        exact hmid

theorem abortsOn_sendCmds (cs : List Command) (i : Iface) :
    abortsOn i ((sendCmds i cs).1) ((sendCmds i cs).2) := by
  induction cs generalizing i with
  | nil => exact abortsOn_refl i
  | cons c cs ih =>
    cases h : i.schedule i.count with
    | some e =>
      have hred : sendCmds i (c :: cs) = ((i.write (Write.cmd c)).1, some e) := by
        simp [sendCmds, Iface.write, h]
      rw [hred]
      have hw := abortsOn_write i (Write.cmd c)
      have h2 : (i.write (Write.cmd c)).2 = some e := h
      rw [h2] at hw
      exact hw
    | none =>
      have hred : sendCmds i (c :: cs) = sendCmds ((i.write (Write.cmd c)).1) cs := by
        simp [sendCmds, Iface.write, h]
      rw [hred]
      have hw := abortsOn_write i (Write.cmd c)
      have h2 : (i.write (Write.cmd c)).2 = none := h
      rw [h2] at hw
      exact abortsOn_comp hw (ih _)

theorem abortsOn_send_draw_address (s : DisplayProperties) (i : Iface) :
    abortsOn i ((send_draw_address s i).1) ((send_draw_address s i).2) :=
  abortsOn_sendCmds _ i

theorem abortsOn_set_draw_area (s : DisplayProperties) (i : Iface)
    (start end_ : Nat × Nat) :
    abortsOn i ((set_draw_area s i start end_).2.1)
      ((set_draw_area s i start end_).2.2) :=
  abortsOn_sendCmds _ i

theorem abortsOn_set_rotation (s : DisplayProperties) (i : Iface)
    (r : DisplayRotation) :
    abortsOn i ((set_rotation s i r).2.1) ((set_rotation s i r).2.2) := by
  cases r <;> exact abortsOn_sendCmds _ i

theorem abortsOn_display_on (s : DisplayProperties) (i : Iface) (b : Bool) :
    abortsOn i ((display_on s i b).2.1) ((display_on s i b).2.2) :=
  abortsOn_write i _

theorem abortsOn_set_contrast (s : DisplayProperties) (i : Iface) (c : Nat) :
    abortsOn i ((set_contrast s i c).2.1) ((set_contrast s i c).2.2) :=
  abortsOn_write i _

theorem abortsOn_init_column_mode (s : DisplayProperties) (i : Iface) :
    abortsOn i ((init_column_mode s i).2.1) ((init_column_mode s i).2.2) := by
  have h1 := abortsOn_sendCmds
    [Command.DisplayClockDiv 6 0, Command.DisplayResolution s.display_size] i
  cases hr1 : (sendCmds i [Command.DisplayClockDiv 6 0,
      Command.DisplayResolution s.display_size]).2 with
  | some e =>
    have heq : init_column_mode s i =
        (s, (sendCmds i [Command.DisplayClockDiv 6 0,
          Command.DisplayResolution s.display_size]).1, some e) := by
      simp [init_column_mode, hr1]
    rw [heq]
    rw [hr1] at h1
    exact h1
  | none =>
    rw [hr1] at h1
    have h2 := abortsOn_set_rotation s
      ((sendCmds i [Command.DisplayClockDiv 6 0,
        Command.DisplayResolution s.display_size]).1) s.display_rotation
    cases hr2 : (set_rotation s ((sendCmds i [Command.DisplayClockDiv 6 0,
        Command.DisplayResolution s.display_size]).1) s.display_rotation).2.2 with
    | some e =>
      have heq : init_column_mode s i =
          ((set_rotation s ((sendCmds i [Command.DisplayClockDiv 6 0,
              Command.DisplayResolution s.display_size]).1)
              s.display_rotation).1,
           (set_rotation s ((sendCmds i [Command.DisplayClockDiv 6 0,
              Command.DisplayResolution s.display_size]).1)
              s.display_rotation).2.1,
           some e) := by
        simp [init_column_mode, hr1, hr2]
      rw [heq]
      rw [hr2] at h2
      exact abortsOn_comp h1 h2
    | none =>
      rw [hr2] at h2
      have h3 := abortsOn_sendCmds
        [Command.PreChargePeriod 8 2, Command.DisplayOn true]
        ((set_rotation s ((sendCmds i [Command.DisplayClockDiv 6 0,
          Command.DisplayResolution s.display_size]).1) s.display_rotation).2.1)
      have heq : init_column_mode s i =
          ((set_rotation s ((sendCmds i [Command.DisplayClockDiv 6 0,
              Command.DisplayResolution s.display_size]).1)
              s.display_rotation).1,
           (sendCmds ((set_rotation s ((sendCmds i [Command.DisplayClockDiv 6 0,
              Command.DisplayResolution s.display_size]).1)
              s.display_rotation).2.1)
             [Command.PreChargePeriod 8 2, Command.DisplayOn true]).1,
           (sendCmds ((set_rotation s ((sendCmds i [Command.DisplayClockDiv 6 0,
              Command.DisplayResolution s.display_size]).1)
              s.display_rotation).2.1)
             [Command.PreChargePeriod 8 2, Command.DisplayOn true]).2) := by
        simp [init_column_mode, hr1, hr2]
      rw [heq]
      exact abortsOn_comp h1 (abortsOn_comp h2 h3)

theorem abortsOn_draw (fuel : Nat) (s : DisplayProperties) (i : Iface)
    (buffer : List Nat) :
    abortsOn i ((draw fuel s i buffer).2.1)
      (Outcome.errOf ((draw fuel s i buffer).2.2)) := by
  induction fuel generalizing s i buffer with
  | zero =>
    cases hb : buffer.isEmpty with
    | true =>
      have heq : draw 0 s i buffer = (s, i, Outcome.ok) := by simp [draw, hb]
      rw [heq]
      exact abortsOn_refl i
    | false =>
      have heq : draw 0 s i buffer = (s, i, Outcome.spin) := by simp [draw, hb]
      rw [heq]
      exact abortsOn_refl i
  | succ f ih =>
    cases hb : buffer.isEmpty with
    | true =>
      have heq : draw (f + 1) s i buffer = (s, i, Outcome.ok) := by
        simp [draw, hb]
      rw [heq]
      exact abortsOn_refl i
    | false =>
      by_cases hlen : buffer.length < u8sub s.draw_area_end.1 s.draw_column
      · have heq : draw (f + 1) s i buffer = (s, i, Outcome.panicked) := by
          simp [draw, hb, hlen]
        rw [heq]
        exact abortsOn_refl i
      · cases hw : i.schedule i.count with
        | some e =>
          rw [draw_succ_writeFail f s i buffer e hb hlen hw]
          have hA := abortsOn_write i (Write.data
            (List.take (u8sub s.draw_area_end.1 s.draw_column) buffer))
          have h2 : (i.write (Write.data
              (List.take (u8sub s.draw_area_end.1 s.draw_column) buffer))).2 =
              some e := hw
          rw [h2] at hA
          exact hA
        | none =>
          have hA := abortsOn_write i (Write.data
            (List.take (u8sub s.draw_area_end.1 s.draw_column) buffer))
          have h2 : (i.write (Write.data
              (List.take (u8sub s.draw_area_end.1 s.draw_column) buffer))).2 =
              none := hw
          rw [h2] at hA
          by_cases hwrap : u8add s.draw_column
              (u8sub s.draw_area_end.1 s.draw_column) ≥ s.draw_area_end.1
          · rcases hr : send_draw_address
                (wrapCursor { s with draw_column := u8add s.draw_column (u8sub s.draw_area_end.1 s.draw_column) })
                ((i.write (Write.data
                  (List.take (u8sub s.draw_area_end.1 s.draw_column) buffer))).1)
              with ⟨i2, r2⟩
            have hS := abortsOn_send_draw_address
              (wrapCursor { s with draw_column := u8add s.draw_column (u8sub s.draw_area_end.1 s.draw_column) })
              ((i.write (Write.data
                (List.take (u8sub s.draw_area_end.1 s.draw_column) buffer))).1)
            rw [hr] at hS
            rw [draw_succ_wrap f s i buffer hb hlen hw hwrap hr]
            cases r2 with
            | some e => exact abortsOn_comp hA hS
            | none => exact abortsOn_comp hA (abortsOn_comp hS (ih _ _ _))
          · rw [draw_succ_nowrap f s i buffer hb hlen hw hwrap]
            exact abortsOn_comp hA (ih _ _ _)

/-- The window state used for the concrete failure-injection runs of `draw`:
start (0,0), end (4,2), cursor at the window start. -/
def c4State : DisplayProperties :=
  { display_size := ⟨128, 160⟩
    display_rotation := DisplayRotation.Rotate0
    draw_area_start := (0, 0)
    draw_area_end := (4, 2)
    draw_column := 0
    draw_row := 0 }

/-- Claim C4: every operation is a straight-line sequence of transport writes
that stops at the first scheduled failure and returns that error verbatim
with no retries (`abortsOn`): the failing write is the last attempted and
every earlier attempted write succeeded. The final conjunct checks the
deterministic partial progress of `draw` concretely: on the (0,0)–(4,2)
window with an 8-byte buffer (writes, 0-based: data, page, col-low, col-high,
data, page, col-low, col-high), injecting a failure on write `k` aborts after
exactly `k + 1` attempts, with the cursor reflecting exactly the chunk
advances completed before the failing write. -/
theorem C4_first_failure_aborts :
    (∀ s i, abortsOn i ((init_column_mode s i).2.1)
      ((init_column_mode s i).2.2)) ∧
    (∀ s i start end_, abortsOn i ((set_draw_area s i start end_).2.1)
      ((set_draw_area s i start end_).2.2)) ∧
    (∀ fuel s i buffer, abortsOn i ((draw fuel s i buffer).2.1)
      (Outcome.errOf ((draw fuel s i buffer).2.2))) ∧
    (∀ s i r, abortsOn i ((set_rotation s i r).2.1)
      ((set_rotation s i r).2.2)) ∧
    (∀ s i b, abortsOn i ((display_on s i b).2.1) ((display_on s i b).2.2)) ∧
    (∀ s i c, abortsOn i ((set_contrast s i c).2.1)
      ((set_contrast s i c).2.2)) ∧
    (∀ e : DisplayError, ∀ k : Nat, k < 8 →
      (draw 3 c4State (mkIface (failAt k e)) [0, 1, 2, 3, 4, 5, 6, 7]).2.2 =
        Outcome.err e ∧
      ((draw 3 c4State (mkIface (failAt k e))
          [0, 1, 2, 3, 4, 5, 6, 7]).2.1).count = k + 1 ∧
      ((draw 3 c4State (mkIface (failAt k e))
          [0, 1, 2, 3, 4, 5, 6, 7]).1).draw_column = 0 ∧
      ((draw 3 c4State (mkIface (failAt k e))
          [0, 1, 2, 3, 4, 5, 6, 7]).1).draw_row =
        (if 1 ≤ k ∧ k ≤ 4 then 1 else 0)) := by
  refine ⟨abortsOn_init_column_mode, abortsOn_set_draw_area, abortsOn_draw,
    abortsOn_set_rotation, abortsOn_display_on, abortsOn_set_contrast, ?_⟩
  intro e k hk
  interval_cases k <;> exact ⟨rfl, rfl, rfl, rfl⟩

theorem C4_witness :
    (draw 3 c4State (mkIface (failAt 4 ⟨9⟩)) [0, 1, 2, 3, 4, 5, 6, 7]).2.2 =
      Outcome.err ⟨9⟩ ∧
    ((draw 3 c4State (mkIface (failAt 4 ⟨9⟩))
        [0, 1, 2, 3, 4, 5, 6, 7]).2.1).count = 5 ∧
    ((draw 3 c4State (mkIface (failAt 4 ⟨9⟩))
        [0, 1, 2, 3, 4, 5, 6, 7]).1).draw_row = 1 := by
  have h := C4_first_failure_aborts.2.2.2.2.2.2 ⟨9⟩ 4 (by omega)
  exact ⟨h.1, h.2.1, by simpa using h.2.2.2⟩

end SH1108
